import Mathlib

/-!
Verification development for the deploy-runner-invoker Lambda
(src/modules/deploy-runner-invoker/lambda/invoker.py).

The Python module is embedded shallowly:

* a request event is a record of the optional fields the code reads
  (absent key = `none`; Python's `event.get(k, d)` becomes `Option.getD`);
* the process-wide configuration loaded from environment variables is a
  `Config` record; `defaultConfig` holds the values the code falls back to
  when the environment variables are unset;
* the ECS backend (boto3's `run_task`) is external to the repository, so the
  handler is parametrised by the backend's reply: `Except String
  RunTaskResponse`, where `Except.error` is a transport-level exception
  carrying its message and `RunTaskResponse` holds the fields the code reads
  from a reply (the started-task descriptors and the rendered failure list);
* Python truthiness on strings (`if app_name and ...`) is modelled as a
  comparison with the empty string after defaulting an absent value to `""`,
  which is exactly the set of falsy values `Option String` can represent.
-/

namespace Invoker

/-- Request event: the fields of the incoming payload that invoker.py reads.
`none` models a key that is absent from the event mapping. -/
structure Event where
  task_type : Option String
  app_name : Option String
  git_ref : Option String
  ecr_repository : Option String
  dockerfile : Option String
  operation : Option String
  working_dir : Option String
  environment : Option String
  ecs_cluster : Option String
  ecs_service : Option String
  triggered_by : Option String
  deriving DecidableEq, Repr

/-- Process-wide configuration read from environment variables at module
load: the cluster ARN and the allowed-apps list (invoker.py lines 22 and 34).
The task-definition kind names are string literals in the code and are kept
as literals here. -/
structure Config where
  CLUSTER_ARN : String
  ALLOWED_APPS : List String
  deriving DecidableEq, Repr

/-- Configuration when the environment variables are unset: `CLUSTER_ARN`
defaults to `""` and `ALLOWED_APPS` to the split of the default string
(invoker.py line 34). -/
def defaultConfig : Config :=
  ⟨"", ["cineos", "photographos", "createos", "lightwave-backend"]⟩

/-- Keys of the TASK_DEFINITIONS mapping (invoker.py lines 27-31), in
insertion order. -/
def TASK_KINDS : List String :=
  ["docker_builder", "terraform_runner", "app_deployer"]

/-- ALLOWED_OPERATIONS (invoker.py line 37). -/
def ALLOWED_OPERATIONS : List String :=
  ["build", "deploy", "plan", "apply"]

/-- Python's repr of a plain string without special characters: the string
between single quotes (written with hex escapes). -/
def pyStrRepr (s : String) : String :=
  "\x27" ++ s ++ "\x27"

/-- Python's repr of a list of plain strings, as it appears interpolated in
the f-strings of validate_request. -/
def pyListRepr (l : List String) : String :=
  "[" ++ String.intercalate ", " (l.map pyStrRepr) ++ "]"

/-- Failure message of the unknown-task-kind branch (invoker.py line 52). -/
def invalidTaskTypeMsg (task_type : String) : String :=
  "Invalid task_type: " ++ task_type ++ ". Must be one of: " ++ pyListRepr TASK_KINDS

/-- Failure message of the disallowed-app branch (invoker.py line 57). -/
def appNotAllowedMsg (cfg : Config) (app_name : String) : String :=
  "App not allowed: " ++ app_name ++ ". Allowed apps: " ++ pyListRepr cfg.ALLOWED_APPS

/-- Failure message of the disallowed-operation branch (invoker.py line 62). -/
def opNotAllowedMsg (operation : String) : String :=
  "Operation not allowed: " ++ operation ++ ". Allowed: " ++ pyListRepr ALLOWED_OPERATIONS

/-- validate_request (invoker.py lines 40-64). Returns (ok, reason). The
app-name and operation checks fire only on a truthy (present and non-empty)
value, mirroring Python's `if app_name and ...`. -/
def validate_request (cfg : Config) (e : Event) : Bool × String :=
  match e.task_type with
  | none => (false, "Missing required field: task_type")
  | some task_type =>
    if ¬ TASK_KINDS.contains task_type then
      (false, invalidTaskTypeMsg task_type)
    else
      let app_name := e.app_name.getD ""
      if app_name ≠ "" ∧ ¬ cfg.ALLOWED_APPS.contains app_name then
        (false, appNotAllowedMsg cfg app_name)
      else
        let operation := e.operation.getD ""
        if operation ≠ "" ∧ ¬ ALLOWED_OPERATIONS.contains operation then
          (false, opNotAllowedMsg operation)
        else
          (true, "")

/-- One name/value pair of a container-override environment list. -/
structure EnvVar where
  name : String
  value : String
  deriving DecidableEq, Repr

/-- One container override entry: the dicts appended to `overrides` in
build_container_overrides carry a name plus either a command or an
environment list; a key the branch does not set is `none`. -/
structure ContainerOverride where
  name : String
  command : Option (List String)
  environment : Option (List EnvVar)
  deriving DecidableEq, Repr

/-- build_container_overrides (invoker.py lines 67-130). -/
def build_container_overrides (e : Event) : List ContainerOverride :=
  if e.task_type = some "docker_builder" then
    let app_name := e.app_name.getD ""
    let git_ref := e.git_ref.getD "main"
    let ecr_repo := e.ecr_repository.getD ""
    let dockerfile := e.dockerfile.getD "Dockerfile"
    let command : List String :=
      ["--context", "git://github.com/lightwave-media/" ++ app_name ++ ".git#" ++ git_ref,
       "--dockerfile", dockerfile,
       "--destination", ecr_repo ++ ":" ++ git_ref,
       "--destination", ecr_repo ++ ":latest",
       "--cache=true"]
    [⟨"kaniko", some command, none⟩]
  else if e.task_type = some "terraform_runner" then
    let operation := e.operation.getD "plan"
    let working_dir := e.working_dir.getD "."
    let command := "cd " ++ working_dir ++ " && terragrunt " ++ operation ++
      " --terragrunt-non-interactive"
    [⟨"terraform", some [command], none⟩]
  else if e.task_type = some "app_deployer" then
    let app_name := e.app_name.getD ""
    let git_ref := e.git_ref.getD "main"
    let environment := e.environment.getD "prod"
    let ecr_repo := e.ecr_repository.getD ""
    let ecs_cluster := e.ecs_cluster.getD ""
    let ecs_service := e.ecs_service.getD ""
    let env_vars : List EnvVar :=
      [⟨"APP_NAME", app_name⟩, ⟨"GIT_REF", git_ref⟩, ⟨"ENVIRONMENT", environment⟩,
       ⟨"ECR_REPOSITORY", ecr_repo⟩, ⟨"ECS_CLUSTER", ecs_cluster⟩, ⟨"ECS_SERVICE", ecs_service⟩]
    [⟨"deployer", none, some env_vars⟩]
  else
    []

/-- One started-task descriptor of a run_task reply: the fields the code
reads (`task.get("taskArn", "")`, `task.get("lastStatus", "PENDING")`);
`none` models a key the backend omitted. -/
structure EcsTask where
  taskArn : Option String
  lastStatus : Option String
  deriving DecidableEq, Repr

/-- Reply of the ECS run_task call as the code consumes it: the list of
started-task descriptors and, for the zero-task case, the failure list as
the string it renders to inside the exception message
(`f"Failed to start ECS task: {failures}"`). -/
structure RunTaskResponse where
  tasks : List EcsTask
  failures : String
  deriving DecidableEq, Repr

/-- Trailing path segment of a task ARN as computed on invoker.py line 176:
`task_arn.split("/")[-1] if task_arn else ""`. -/
def lastPathSegment (s : String) : String :=
  if s = "" then "" else (s.splitOn "/").getLastD ""

/-- Success value returned by start_ecs_task (invoker.py lines 178-183). -/
structure TaskResult where
  task_arn : String
  task_id : String
  cluster_arn : String
  status : String
  deriving DecidableEq, Repr

/-- start_ecs_task (invoker.py lines 133-183), parametrised by the backend's
reply to the single run_task call: a transport exception propagates as
`Except.error` with its message, a reply with zero tasks raises the
failure-list exception, and otherwise the first task descriptor is
normalised into a TaskResult. -/
def start_ecs_task (cfg : Config) (backend : Except String RunTaskResponse)
    (_e : Event) : Except String TaskResult :=
  match backend with
  | Except.error msg => Except.error msg
  | Except.ok resp =>
    match resp.tasks with
    | [] => Except.error ("Failed to start ECS task: " ++ resp.failures)
    | task :: _ =>
      let task_arn := task.taskArn.getD ""
      Except.ok ⟨task_arn, lastPathSegment task_arn, cfg.CLUSTER_ARN,
        task.lastStatus.getD "PENDING"⟩

/-- Body of a handler response: `success` plus the optional keys the three
return branches of the handler put into the JSON body (a key a branch does
not set is `none`). -/
structure ResponseBody where
  success : Bool
  error : Option String
  task_arn : Option String
  task_id : Option String
  cluster_arn : Option String
  status : Option String
  message : Option String
  deriving DecidableEq, Repr

/-- Handler response: statusCode and body (invoker.py lines 196-229). -/
structure HandlerResponse where
  statusCode : Nat
  body : ResponseBody
  deriving DecidableEq, Repr

/-- handler (invoker.py lines 186-229), parametrised by the backend's reply:
validation failure returns 400 with the reason, a raised exception (transport
failure or empty task list) returns 500 with the exception message, and a
started task returns 200 with the normalised result. -/
def handler (cfg : Config) (backend : Except String RunTaskResponse)
    (e : Event) : HandlerResponse :=
  match validate_request cfg e with
  | (false, error_message) =>
    ⟨400, ⟨false, some error_message, none, none, none, none, none⟩⟩
  | (true, _) =>
    match start_ecs_task cfg backend e with
    | Except.error msg =>
      ⟨500, ⟨false, some msg, none, none, none, none, none⟩⟩
    | Except.ok result =>
      ⟨200, ⟨true, none, some result.task_arn, some result.task_id,
        some result.cluster_arn, some result.status,
        some ("ECS task started: " ++ result.task_id)⟩⟩

/-- Event with every field absent, used to build concrete test inputs. -/
def emptyEvent : Event :=
  ⟨none, none, none, none, none, none, none, none, none, none, none⟩

/-- Request with an unknown task kind and a disallowed app name. -/
def unknownKindEvent : Event :=
  { emptyEvent with task_type := some "weird", app_name := some "not-an-app" }

/-- Request with a valid kind whose app_name key is present but holds the
empty string. -/
def emptyAppEvent : Event :=
  { emptyEvent with task_type := some "docker_builder", app_name := some "" }

/-- Request with a valid kind and an app name outside the allowed set. -/
def badAppEvent : Event :=
  { emptyEvent with task_type := some "docker_builder", app_name := some "not-an-app" }

/-- Infrastructure-runner request with an explicit operation and working
directory. -/
def terraformApplyEvent : Event :=
  { emptyEvent with
    task_type := some "terraform_runner"
    operation := some "apply"
    working_dir := some "infra/prod" }

/-- Image-build request for app "foo" with git_ref and dockerfile omitted. -/
def fooBuildEvent : Event :=
  { emptyEvent with
    task_type := some "docker_builder"
    app_name := some "foo"
    ecr_repository := some "123.dkr/foo" }

/-- Kaniko command the code builds for fooBuildEvent. -/
def fooBuildCommand : List String :=
  ["--context", "git://github.com/lightwave-media/foo.git#main",
   "--dockerfile", "Dockerfile",
   "--destination", "123.dkr/foo:main",
   "--destination", "123.dkr/foo:latest",
   "--cache=true"]

/-- Minimal request that passes validation (valid kind, no optional fields). -/
def validTerraformEvent : Event :=
  { emptyEvent with task_type := some "terraform_runner" }

end Invoker

namespace Invoker

/-- C1: for every input event, the handler returns a response whose statusCode
is one of 200, 400 or 500, with body.success true exactly when the statusCode
is 200; on success the body carries the first started task's ARN, the task id
equal to the trailing path segment of that handle (empty if the handle is
absent), the configured cluster ARN, the backend-reported status defaulting to
the "PENDING" sentinel when the backend omits it, and a human-readable
message; on failure the body carries an error string (and success is false). -/
theorem handler_response_envelope (cfg : Config)
    (backend : Except String RunTaskResponse) (e : Event) :
    ((handler cfg backend e).statusCode = 200 ∨ (handler cfg backend e).statusCode = 400 ∨
      (handler cfg backend e).statusCode = 500) ∧
    ((handler cfg backend e).body.success = true ↔ (handler cfg backend e).statusCode = 200) ∧
    ((handler cfg backend e).statusCode = 200 →
      ∃ resp task rest, backend = Except.ok resp ∧ resp.tasks = task :: rest ∧
        (handler cfg backend e).body.task_arn = some (task.taskArn.getD "") ∧
        (handler cfg backend e).body.task_id =
          some (lastPathSegment (task.taskArn.getD "")) ∧
        (handler cfg backend e).body.cluster_arn = some cfg.CLUSTER_ARN ∧
        (handler cfg backend e).body.status = some (task.lastStatus.getD "PENDING") ∧
        (handler cfg backend e).body.message =
          some ("ECS task started: " ++ lastPathSegment (task.taskArn.getD ""))) ∧
    ((handler cfg backend e).statusCode ≠ 200 →
      (handler cfg backend e).body.success = false ∧
      ∃ err, (handler cfg backend e).body.error = some err) := by
  rcases hv : validate_request cfg e with ⟨ok, m⟩
  cases ok
  · have hh : handler cfg backend e =
        ⟨400, ⟨false, some m, none, none, none, none, none⟩⟩ := by
      unfold handler
      rw [hv]
    simp [hh]
  · rcases backend with msg | resp
    · have hh : handler cfg (Except.error msg) e =
          ⟨500, ⟨false, some msg, none, none, none, none, none⟩⟩ := by
        unfold handler
        rw [hv]
        rfl
      simp [hh]
    · rcases htasks : resp.tasks with _ | ⟨task, rest⟩
      · have hh : handler cfg (Except.ok resp) e =
            ⟨500, ⟨false, some ("Failed to start ECS task: " ++ resp.failures),
              none, none, none, none, none⟩⟩ := by
          unfold handler start_ecs_task
          rw [hv]
          simp [htasks]
        simp [hh]
      · have hh : handler cfg (Except.ok resp) e =
            ⟨200, ⟨true, none, some (task.taskArn.getD ""),
              some (lastPathSegment (task.taskArn.getD "")), some cfg.CLUSTER_ARN,
              some (task.lastStatus.getD "PENDING"),
              some ("ECS task started: " ++ lastPathSegment (task.taskArn.getD ""))⟩⟩ := by
          unfold handler start_ecs_task
          rw [hv]
          simp [htasks]
        refine ⟨Or.inl (by simp [hh]), by simp [hh], ?_, by simp [hh]⟩
        intro _
        exact ⟨resp, task, rest, rfl, htasks, by simp [hh], by simp [hh], by simp [hh],
          by simp [hh], by simp [hh]⟩

/-- C2: a request whose task_kind field is absent fails validation with the
MissingField reason, the handler returns a 400 client-error response carrying
that reason, and the backend is never invoked: the handler's result is the
same whatever the backend would have replied. -/
theorem validation_missing_task_kind (cfg : Config)
    (b₁ b₂ : Except String RunTaskResponse) (e : Event)
    (h : e.task_type = none) :
    validate_request cfg e = (false, "Missing required field: task_type") ∧
    handler cfg b₁ e =
      ⟨400, ⟨false, some "Missing required field: task_type", none, none, none, none, none⟩⟩ ∧
    handler cfg b₁ e = handler cfg b₂ e := by
  obtain ⟨t, a, g, r, d, o, w, v, c, s, tb⟩ := e
  simp only at h
  subst h
  exact ⟨rfl, rfl, rfl⟩

/-- C2 witness: the empty event at two distinct backend replies. -/
theorem validation_missing_task_kind_wit :
    validate_request defaultConfig emptyEvent =
      (false, "Missing required field: task_type") ∧
    handler defaultConfig (Except.error "boom") emptyEvent =
      ⟨400, ⟨false, some "Missing required field: task_type", none, none, none, none, none⟩⟩ ∧
    handler defaultConfig (Except.error "boom") emptyEvent =
      handler defaultConfig (Except.ok ⟨[], "f"⟩) emptyEvent :=
  validation_missing_task_kind defaultConfig (Except.error "boom") (Except.ok ⟨[], "f"⟩)
    emptyEvent rfl

/-- C3: a request whose task_kind is present but outside the closed set of
kinds fails validation with the UnknownTaskKind reason whose message
enumerates the full valid set (each kind of the set occurs in the enumerated
list, which the message ends with), whatever the other fields hold — the
theorem quantifies over every event with such a kind, so a disallowed app
name still yields this reason. -/
theorem validation_unknown_task_kind (cfg : Config) (e : Event) (k : String)
    (hk : e.task_type = some k) (hmem : k ∉ TASK_KINDS) :
    validate_request cfg e = (false, invalidTaskTypeMsg k) ∧
    invalidTaskTypeMsg k =
      "Invalid task_type: " ++ k ++ ". Must be one of: " ++ pyListRepr TASK_KINDS ∧
    ∀ kind ∈ TASK_KINDS, ∃ p q, pyListRepr TASK_KINDS = p ++ kind ++ q := by
  refine ⟨?_, rfl, ?_⟩
  · simp [validate_request, hk, hmem]
  · intro kind hkind
    simp only [TASK_KINDS, List.mem_cons, List.not_mem_nil, or_false] at hkind
    rcases hkind with rfl | rfl | rfl
    · exact ⟨"[\x27", "\x27, \x27terraform_runner\x27, \x27app_deployer\x27]", by decide⟩
    · exact ⟨"[\x27docker_builder\x27, \x27", "\x27, \x27app_deployer\x27]", by decide⟩
    · exact ⟨"[\x27docker_builder\x27, \x27terraform_runner\x27, \x27", "\x27]", by decide⟩

/-- C3 witness: an unknown kind together with a disallowed app name. -/
theorem validation_unknown_task_kind_wit :
    validate_request defaultConfig unknownKindEvent = (false, invalidTaskTypeMsg "weird") ∧
    invalidTaskTypeMsg "weird" =
      "Invalid task_type: weird. Must be one of: " ++ pyListRepr TASK_KINDS ∧
    ∀ kind ∈ TASK_KINDS, ∃ p q, pyListRepr TASK_KINDS = p ++ kind ++ q :=
  validation_unknown_task_kind defaultConfig unknownKindEvent "weird" rfl (by decide)

/-- C4 counterexample: a request with a valid kind whose app_name key is
present with the empty string — a value outside the allowed-applications
set — passes validation, because the code's truthiness test
(if app_name and app_name not in ALLOWED_APPS) skips falsy values; the claim
as stated would require an AppNotAllowed failure here. -/
theorem app_check_skips_empty_string :
    emptyAppEvent.app_name = some "" ∧
    "" ∉ defaultConfig.ALLOWED_APPS ∧
    emptyAppEvent.task_type = some "docker_builder" ∧ "docker_builder" ∈ TASK_KINDS ∧
    validate_request defaultConfig emptyAppEvent = (true, "") := by
  refine ⟨rfl, by decide, rfl, by decide, by decide⟩

/-- C4 (amended): for every request with a valid task_kind, if app_name is
present with a non-empty value outside the allowed-applications set,
validation fails with AppNotAllowed; if app_name is omitted or supplied as
the empty string, the app check is never triggered — validation either
succeeds or fails only on account of a disallowed operation. -/
theorem validation_app_not_allowed (cfg : Config) (e : Event) (k : String)
    (hk : e.task_type = some k) (hkv : k ∈ TASK_KINDS) :
    (∀ a, e.app_name = some a → a ≠ "" → a ∉ cfg.ALLOWED_APPS →
      validate_request cfg e = (false, appNotAllowedMsg cfg a)) ∧
    (e.app_name = none ∨ e.app_name = some "" →
      validate_request cfg e = (true, "") ∨
      ∃ o, e.operation = some o ∧ o ∉ ALLOWED_OPERATIONS ∧
        validate_request cfg e = (false, opNotAllowedMsg o)) := by
  constructor
  · intro a ha hne hmem
    simp [validate_request, hk, hkv, ha, hne, hmem]
  · intro ha
    have happ : e.app_name.getD "" = "" := by
      rcases ha with ha | ha <;> simp [ha]
    rcases ho : e.operation with _ | o
    · left
      simp [validate_request, hk, hkv, happ, ho]
    · by_cases hoe : o = ""
      · left
        subst hoe
        simp [validate_request, hk, hkv, happ, ho]
      · by_cases hom : o ∈ ALLOWED_OPERATIONS
        · left
          simp [validate_request, hk, hkv, happ, ho, hom]
        · right
          exact ⟨o, rfl, hom, by simp [validate_request, hk, hkv, happ, ho, hoe, hom]⟩

/-- C4 witness: a valid kind with a disallowed non-empty app name (the
empty-string side of the amendment is exercised concretely by the
counterexample, which evaluates validation at emptyAppEvent). -/
theorem validation_app_not_allowed_wit :
    (∀ a, badAppEvent.app_name = some a → a ≠ "" →
        a ∉ defaultConfig.ALLOWED_APPS →
      validate_request defaultConfig badAppEvent =
        (false, appNotAllowedMsg defaultConfig a)) ∧
    (badAppEvent.app_name = none ∨ badAppEvent.app_name = some "" →
      validate_request defaultConfig badAppEvent = (true, "") ∨
      ∃ o, badAppEvent.operation = some o ∧ o ∉ ALLOWED_OPERATIONS ∧
        validate_request defaultConfig badAppEvent = (false, opNotAllowedMsg o)) :=
  validation_app_not_allowed defaultConfig badAppEvent "docker_builder" rfl (by decide)

/-- C5: an infrastructure-runner request with operation "apply" and
working_dir "infra/prod" builds one override whose command is exactly one
string, "cd infra/prod && terragrunt apply --terragrunt-non-interactive";
when the operation and working directory are omitted they default to "plan"
and ".". -/
theorem terraform_runner_command :
    build_container_overrides terraformApplyEvent =
      [⟨"terraform",
        some ["cd infra/prod && terragrunt apply --terragrunt-non-interactive"], none⟩] ∧
    ∀ e, e.task_type = some "terraform_runner" → e.operation = none → e.working_dir = none →
      build_container_overrides e =
        [⟨"terraform", some ["cd . && terragrunt plan --terragrunt-non-interactive"], none⟩] := by
  refine ⟨by decide, ?_⟩
  intro e h1 h2 h3
  simp [build_container_overrides, h1, h2, h3]

/-- C6: an image-build request for app "foo" with git_ref omitted,
ecr_repository "123.dkr/foo" and dockerfile omitted builds the kaniko command
whose context reference ends in "#main", which carries the adjacent pair
"--dockerfile Dockerfile", two "--destination" entries "123.dkr/foo:main" and
"123.dkr/foo:latest"; in general the git reference defaults to "main" and the
dockerfile to "Dockerfile". -/
theorem docker_builder_command :
    build_container_overrides fooBuildEvent = [⟨"kaniko", some fooBuildCommand, none⟩] ∧
    (∃ c ∈ fooBuildCommand, (∃ pre, c = pre ++ "#main") ∧
      ∃ p q, fooBuildCommand = p ++ ["--context", c] ++ q) ∧
    (∃ p q, fooBuildCommand = p ++ ["--dockerfile", "Dockerfile"] ++ q) ∧
    (∃ p q, fooBuildCommand = p ++ ["--destination", "123.dkr/foo:main"] ++ q) ∧
    (∃ p q, fooBuildCommand = p ++ ["--destination", "123.dkr/foo:latest"] ++ q) ∧
    fooBuildCommand.count "--destination" = 2 ∧
    (∀ e, e.task_type = some "docker_builder" → e.git_ref = none → e.dockerfile = none →
      build_container_overrides e =
        [⟨"kaniko",
          some ["--context",
            "git://github.com/lightwave-media/" ++ e.app_name.getD "" ++ ".git#main",
            "--dockerfile", "Dockerfile",
            "--destination", e.ecr_repository.getD "" ++ ":main",
            "--destination", e.ecr_repository.getD "" ++ ":latest",
            "--cache=true"], none⟩]) := by
  refine ⟨by decide, ?_, ?_, ?_, ?_, by decide, ?_⟩
  · exact ⟨"git://github.com/lightwave-media/foo.git#main", by decide,
      ⟨"git://github.com/lightwave-media/foo.git", by decide⟩,
      ⟨[], fooBuildCommand.drop 2, by decide⟩⟩
  · exact ⟨fooBuildCommand.take 2, fooBuildCommand.drop 4, by decide⟩
  · exact ⟨fooBuildCommand.take 4, fooBuildCommand.drop 6, by decide⟩
  · exact ⟨fooBuildCommand.take 6, fooBuildCommand.drop 8, by decide⟩
  · intro e h1 h2 h3
    simp [build_container_overrides, h1, h2, h3, String.append_assoc]

/-- C7: a combined build-and-deploy request with all six relevant fields
supplied builds one override targeting the deployer container with exactly
the six environment entries APP_NAME, GIT_REF, ENVIRONMENT, ECR_REPOSITORY,
ECS_CLUSTER, ECS_SERVICE holding the supplied values and no command field;
the target environment defaults to "prod" when omitted. -/
theorem app_deployer_override :
    (∀ a g v r c s,
      build_container_overrides
          ⟨some "app_deployer", some a, some g, some r, none, none, none,
            some v, some c, some s, none⟩ =
        [⟨"deployer", none,
          some [⟨"APP_NAME", a⟩, ⟨"GIT_REF", g⟩, ⟨"ENVIRONMENT", v⟩,
            ⟨"ECR_REPOSITORY", r⟩, ⟨"ECS_CLUSTER", c⟩, ⟨"ECS_SERVICE", s⟩]⟩]) ∧
    (∀ e, e.task_type = some "app_deployer" → e.environment = none →
      ∃ envs, build_container_overrides e = [⟨"deployer", none, some envs⟩] ∧
        (⟨"ENVIRONMENT", "prod"⟩ : EnvVar) ∈ envs ∧ envs.length = 6) := by
  constructor
  · intro a g v r c s
    simp [build_container_overrides]
  · intro e h1 h2
    refine ⟨[⟨"APP_NAME", e.app_name.getD ""⟩, ⟨"GIT_REF", e.git_ref.getD "main"⟩,
      ⟨"ENVIRONMENT", "prod"⟩, ⟨"ECR_REPOSITORY", e.ecr_repository.getD ""⟩,
      ⟨"ECS_CLUSTER", e.ecs_cluster.getD ""⟩, ⟨"ECS_SERVICE", e.ecs_service.getD ""⟩],
      by simp [build_container_overrides, h1, h2], by simp, rfl⟩

/-- C8: the override builder is a total function of the request (it is a
computable Lean function, so it terminates on every event and has no failure
path); for each of the three known task kinds it produces exactly one
override entry targeting the branch's container name, and for any other
task_kind value — a different string or an absent field — it produces the
empty list. -/
theorem build_overrides_closed_dispatch (e : Event) :
    (e.task_type = some "docker_builder" →
      (build_container_overrides e).map ContainerOverride.name = ["kaniko"]) ∧
    (e.task_type = some "terraform_runner" →
      (build_container_overrides e).map ContainerOverride.name = ["terraform"]) ∧
    (e.task_type = some "app_deployer" →
      (build_container_overrides e).map ContainerOverride.name = ["deployer"]) ∧
    (e.task_type ≠ some "docker_builder" → e.task_type ≠ some "terraform_runner" →
      e.task_type ≠ some "app_deployer" → build_container_overrides e = []) := by
  refine ⟨?_, ?_, ?_, ?_⟩
  · intro h
    simp [build_container_overrides, h]
  · intro h
    simp [build_container_overrides, h]
  · intro h
    simp [build_container_overrides, h]
  · intro h1 h2 h3
    simp [build_container_overrides, h1, h2, h3]

/-- C9: for every request that passes validation, if the backend's run-task
reply holds zero started task instances the handler returns a 500
server-error response whose body's error field carries the backend's
failure-list payload (the exception message ends with that payload verbatim)
and carries none of the success-result fields. -/
theorem handler_backend_zero_tasks (cfg : Config) (e : Event) (resp : RunTaskResponse)
    (hok : (validate_request cfg e).1 = true) (hzero : resp.tasks = []) :
    handler cfg (Except.ok resp) e =
      ⟨500, ⟨false, some ("Failed to start ECS task: " ++ resp.failures),
        none, none, none, none, none⟩⟩ ∧
    ∃ p, "Failed to start ECS task: " ++ resp.failures = p ++ resp.failures := by
  rcases hv : validate_request cfg e with ⟨ok, m⟩
  rw [hv] at hok
  cases hok
  constructor
  · unfold handler start_ecs_task
    rw [hv]
    simp [hzero]
  · exact ⟨"Failed to start ECS task: ", rfl⟩

/-- C9 witness: a valid request against a reply with zero tasks. -/
theorem handler_backend_zero_tasks_wit :
    handler defaultConfig (Except.ok ⟨[], "capacity failure"⟩) validTerraformEvent =
      ⟨500, ⟨false, some ("Failed to start ECS task: " ++ "capacity failure"),
        none, none, none, none, none⟩⟩ ∧
    ∃ p, "Failed to start ECS task: " ++ "capacity failure" = p ++ "capacity failure" :=
  handler_backend_zero_tasks defaultConfig validTerraformEvent ⟨[], "capacity failure"⟩
    rfl rfl

/-- C10: the validation result depends only on the task_type, app_name and
operation fields — two requests that agree on those three fields (equal when
present, absent in both otherwise) validate identically, whatever git_ref,
ecr_repository, dockerfile, working_dir, environment, ecs_cluster,
ecs_service or triggered_by hold. -/
theorem validate_reads_only_policy_fields (cfg : Config) (e₁ e₂ : Event)
    (h1 : e₁.task_type = e₂.task_type) (h2 : e₁.app_name = e₂.app_name)
    (h3 : e₁.operation = e₂.operation) :
    validate_request cfg e₁ = validate_request cfg e₂ := by
  unfold validate_request
  rw [h1, h2, h3]

/-- C10 witness: two valid requests differing in working_dir, git_ref and
triggered_by validate identically. -/
theorem validate_reads_only_policy_fields_wit :
    validate_request defaultConfig
        { validTerraformEvent with working_dir := some "infra/prod" } =
      validate_request defaultConfig
        { validTerraformEvent with git_ref := some "dev", triggered_by := some "ci" } :=
  validate_reads_only_policy_fields defaultConfig
    { validTerraformEvent with working_dir := some "infra/prod" }
    { validTerraformEvent with git_ref := some "dev", triggered_by := some "ci" }
    rfl rfl rfl

end Invoker
